import Mathlib

/-!
Verification of the weakpass scanner core against its natural-language
specification.  The Python sources are shallowly embedded: dataclasses become
structures, methods become functions, Python dicts become association lists
(insertion-ordered, like Python 3.7+ dicts), and fallible calls return
`Except`.  External library primitives (hash functions other than md5, the
JSON parser) are taken as explicit function parameters of the definitions
that call them.
-/

namespace Weakpass

/-- Substring occurrence on character lists: `nee` occurs contiguously in
the second argument. -/
def charsContains (nee : List Char) : List Char → Bool
  | [] => nee.isEmpty
  | c :: cs => nee.isPrefixOf (c :: cs) || charsContains nee cs

/-- Python substring test `needle in hay` on strings. -/
def strContains (hay needle : String) : Bool :=
  charsContains needle.data hay.data

/-- Python `str.lower()` (character-wise; the URLs and pattern values fed to
it here are ASCII, where the two agree). -/
def lowerStr (s : String) : String :=
  String.mk (s.data.map Char.toLower)

/-- Lookup in a Python dict modelled as an association list:
`d.get(k, default)` with the default supplied by the caller. -/
def dictGetD (d : List (String × Int)) (k : String) (dflt : Int) : Int :=
  match d.lookup k with
  | some v => v
  | none => dflt

/-! ## Data model from `src/core/async_verifier.py`
(the module `progress_manager.py` imports `TargetInfo`, `LoginResult`
and `LoginStatus` from there). -/

/-- Enum `LoginStatus` from `async_verifier.py`. -/
inductive LoginStatus where
  | SUCCESS
  | PASSWORD_ERROR
  | USERNAME_ERROR
  | CAPTCHA_ERROR
  | CAPTCHA_REQUIRED
  | CONNECTION_ERROR
  | TIMEOUT_ERROR
  | UNKNOWN_ERROR
deriving DecidableEq, Repr, BEq

/-- The `.value` string of each `LoginStatus` member. -/
def LoginStatus.value : LoginStatus → String
  | .SUCCESS => "登录成功"
  | .PASSWORD_ERROR => "密码错误"
  | .USERNAME_ERROR => "用户名错误"
  | .CAPTCHA_ERROR => "验证码错误"
  | .CAPTCHA_REQUIRED => "需要验证码"
  | .CONNECTION_ERROR => "连接错误"
  | .TIMEOUT_ERROR => "超时错误"
  | .UNKNOWN_ERROR => "未知错误"

/-- Enum lookup `LoginStatus(value)`: raises `ValueError` on an unknown
value string. -/
def LoginStatus.ofValue (v : String) : Except String LoginStatus :=
  if v = "登录成功" then .ok .SUCCESS
  else if v = "密码错误" then .ok .PASSWORD_ERROR
  else if v = "用户名错误" then .ok .USERNAME_ERROR
  else if v = "验证码错误" then .ok .CAPTCHA_ERROR
  else if v = "需要验证码" then .ok .CAPTCHA_REQUIRED
  else if v = "连接错误" then .ok .CONNECTION_ERROR
  else if v = "超时错误" then .ok .TIMEOUT_ERROR
  else if v = "未知错误" then .ok .UNKNOWN_ERROR
  else .error "ValueError"

/-- Dataclass `LoginResult` from `async_verifier.py`.  `response_time`
(a Python float) is modelled abstractly as an integer number of
microseconds; no claim computes with it.  `details : Dict[str, Any]` is
modelled as an association list with string values. -/
structure LoginResult where
  status : LoginStatus
  success : Bool
  message : String
  response_time : Int
  url : String
  final_url : String
  page_changed : Bool
  details : Option (List (String × String)) := none
  timestamp : String := ""
deriving DecidableEq, Repr

/-- Dataclass `TargetInfo` from `async_verifier.py`.  Note: this variant has
only the fields `url, username, password, extra, index` — it defines neither
a `source_file` field nor a `to_dict` method (those exist only on the
distinct `TargetInfo` in `enhanced_batch_importer.py`). -/
structure TargetInfo where
  url : String
  username : String
  password : String
  extra : Option (List (String × String)) := none
  index : Nat := 0
deriving DecidableEq, Repr

/-- `TargetInfo.is_valid` from `async_verifier.py`: all three of url,
username, password non-empty (Python truthiness of strings). -/
def TargetInfo.is_valid (t : TargetInfo) : Bool :=
  !t.url.isEmpty && !t.username.isEmpty && !t.password.isEmpty

/-! ## `src/core/progress_manager.py` -/

/-- Dataclass `ScanSession`.  `stats : Dict[str, int]` is an association
list with `Int` values (the `remaining` entry is a Python subtraction). -/
structure ScanSession where
  session_id : String
  created_at : String
  updated_at : String
  targets : List TargetInfo
  completed_indices : List Nat := []
  results : List LoginResult := []
  config : List (String × String) := []
  stats : List (String × Int) := []
deriving DecidableEq, Repr

/-- The guard of the replacement loop in `ScanSession.add_result`:
`hasattr(r, 'target') and hasattr(r.target, 'index') and r.target.index == index`.
The `LoginResult` dataclass declares no `target` attribute and no code in the
repository ever assigns one, so `hasattr(r, 'target')` is `False` for every
result and the guard never holds; the loop therefore never identifies a prior
result for any index. -/
def resultTargetIndex (_ : LoginResult) : Option Nat :=
  none

/-- The `for ... else` replacement loop in `ScanSession.add_result`: replace
the first result whose recorded target index equals `index`, else append. -/
def replaceOrAppend (index : Nat) (result : LoginResult) :
    List LoginResult → List LoginResult
  | [] => [result]
  | r :: rs =>
      if resultTargetIndex r = some index then result :: rs
      else r :: replaceOrAppend index result rs

/-- `ScanSession._update_stats`: recompute the `stats` dict from the full
current state. -/
def ScanSession.update_stats (s : ScanSession) : ScanSession :=
  { s with stats := [
      ("total", (s.targets.length : Int)),
      ("completed", (s.completed_indices.length : Int)),
      ("remaining", (s.targets.length : Int) - (s.completed_indices.length : Int)),
      ("success", (s.results.countP (fun r => r.success) : Int)),
      ("failed", (s.results.countP
          (fun r => !r.success && !(r.status == LoginStatus.UNKNOWN_ERROR)) : Int)),
      ("errors", (s.results.countP
          (fun r => [LoginStatus.CONNECTION_ERROR, LoginStatus.TIMEOUT_ERROR,
                     LoginStatus.UNKNOWN_ERROR].contains r.status) : Int))] }

/-- `ScanSession.add_result(index, result)`.  The current wall-clock string
written to `updated_at` is passed in as `now`. -/
def ScanSession.add_result (s : ScanSession) (index : Nat) (result : LoginResult)
    (now : String) : ScanSession :=
  let completed' :=
    if s.completed_indices.contains index then s.completed_indices
    else s.completed_indices ++ [index]
  let results' := replaceOrAppend index result s.results
  ScanSession.update_stats
    { s with completed_indices := completed', results := results', updated_at := now }

/-- `ScanSession.get_remaining_targets`:
`[t for i, t in enumerate(self.targets) if i not in self.completed_indices]`. -/
def ScanSession.get_remaining_targets (s : ScanSession) : List TargetInfo :=
  (s.targets.enum.filter (fun it => !(s.completed_indices.contains it.1))).map
    (fun it => it.2)

/-! ### Persisted session format (`to_dict` / `from_dict` / save / load) -/

/-- One entry of the persisted `targets[]` array. -/
structure TargetData where
  url : String
  username : String
  password : String
  extra : Option (List (String × String)) := none
  index : Nat := 0
  source_file : Option String := none
deriving DecidableEq, Repr

/-- One entry of the persisted `results[]` array (the dict literal built in
`ScanSession.to_dict`). -/
structure ResultData where
  status_value : String
  success : Bool
  message : String
  response_time : Int
  url : String
  final_url : String
  page_changed : Bool
  details : Option (List (String × String))
  timestamp : String
  target_index : Option String
deriving DecidableEq, Repr

/-- The persisted JSON document written by `ProgressManager.save_session`. -/
structure SessionData where
  session_id : String
  created_at : String
  updated_at : String
  targets : List TargetData
  completed_indices : List Nat
  results : List ResultData
  config : List (String × String)
  stats : List (String × Int)
deriving DecidableEq, Repr

/-- The evaluation of `t.to_dict()` inside `ScanSession.to_dict`.  The
`TargetInfo` imported there (from `async_verifier.py`) defines no `to_dict`
method, so the attribute lookup raises `AttributeError` for every target. -/
def targetToDictCall (_ : TargetInfo) : Except String TargetData :=
  .error "AttributeError: TargetInfo has no attribute to_dict"

/-- The result-entry dict built inside `ScanSession.to_dict`. -/
def resultToData (r : LoginResult) : ResultData :=
  { status_value := r.status.value
    success := r.success
    message := r.message
    response_time := r.response_time
    url := r.url
    final_url := r.final_url
    page_changed := r.page_changed
    details := r.details
    timestamp := r.timestamp
    target_index :=
      match r.details with
      | some d => d.lookup "target_index"
      | none => none }

/-- `ScanSession.to_dict`; serializing the target list evaluates
`t.to_dict()` per target and therefore propagates its exception. -/
def ScanSession.to_dict (s : ScanSession) : Except String SessionData := do
  let tds ← s.targets.mapM targetToDictCall
  .ok { session_id := s.session_id
        created_at := s.created_at
        updated_at := s.updated_at
        targets := tds
        completed_indices := s.completed_indices
        results := s.results.map resultToData
        config := s.config
        stats := s.stats }

/-- The construction `TargetInfo(url=..., username=..., password=...,
extra=..., index=..., source_file=t_data.get('source_file'))` performed by
`ScanSession.from_dict`.  The `TargetInfo` dataclass imported from
`async_verifier.py` has no `source_file` field, so the call raises
`TypeError` (unexpected keyword argument) for every target entry. -/
def targetFromData (_ : TargetData) : Except String TargetInfo :=
  .error "TypeError: unexpected keyword argument source_file"

/-- Rebuilding one `LoginResult` inside `ScanSession.from_dict`;
`LoginStatus(r_data['status'])` raises `ValueError` on an unknown value. -/
def resultFromData (d : ResultData) : Except String LoginResult := do
  let st ← LoginStatus.ofValue d.status_value
  .ok { status := st
        success := d.success
        message := d.message
        response_time := d.response_time
        url := d.url
        final_url := d.final_url
        page_changed := d.page_changed
        details := d.details
        timestamp := d.timestamp }

/-- `ScanSession.from_dict` (the `__post_init__` regeneration of blank
`session_id` / timestamps only fires on empty strings and is not modelled
beyond passing the stored values through). -/
def ScanSession.from_dict (d : SessionData) : Except String ScanSession := do
  let targets ← d.targets.mapM targetFromData
  let results ← d.results.mapM resultFromData
  .ok { session_id := d.session_id
        created_at := d.created_at
        updated_at := d.updated_at
        targets := targets
        completed_indices := d.completed_indices
        results := results
        config := d.config
        stats := d.stats }

/-- `ProgressManager.save_session`: serializes via `session.to_dict()` inside
`try/except`, returning `False` when serialization raises. -/
def saveSession (s : ScanSession) : Bool :=
  match s.to_dict with
  | .ok _ => true
  | .error _ => false

/-- `save_session` followed by `load_session(session.session_id)` on a fresh
store: when saving raised, no file exists and `load_session` returns `None`;
when loading raises (inside its `try/except`), `load_session` also returns
`None`; otherwise the deserialized session is returned. -/
def saveLoadRoundTrip (s : ScanSession) : Option ScanSession :=
  match s.to_dict with
  | .error _ => none
  | .ok d =>
      match ScanSession.from_dict d with
      | .error _ => none
      | .ok s' => some s'

/-! ## `src/core/config_manager.py` and `src/core/simple_config.py` -/

/-- A detection-pattern dict as stored in a profile's `patterns` list; the
resolvers read `pattern.get('type')` and `pattern.get('value', '')`. -/
structure Pattern where
  ptype : String
  value : String
deriving DecidableEq, Repr

/-- An indicator dict from `success_indicators` / `failure_indicators`; the
`type` key selects the predicate and fixes the runtime type of `value`.
Dicts whose `type` is none of the four recognized strings match nothing and
are modelled by `other`. -/
inductive Indicator where
  | status_code (v : Int)
  | body_contains (v : String)
  | body_not_contains (v : String)
  | body_length_gt (v : Int)
  | other (t : String)
deriving DecidableEq, Repr

/-- The fields shared by `SystemConfig` (`config_manager.py`) and
`SimpleSystemConfig` (`simple_config.py`); both dataclasses carry exactly
these fields with these defaults. -/
structure SystemConfig where
  name : String
  patterns : List Pattern
  login_endpoint : String
  method : String := "POST"
  content_type : String := "application/json"
  username_field : String := "username"
  password_field : String := "password"
  password_encryption : String := "none"
  headers : List (String × String) := []
  success_indicators : List Indicator := []
  failure_indicators : List Indicator := []
deriving DecidableEq, Repr

/-- The inline fallback literal `SystemConfig(name="通用", patterns=[],
login_endpoint="/login", method="POST", content_type="application/json")`
in `ConfigManager.get_system_config`. -/
def defaultGenericConfig : SystemConfig :=
  { name := "通用"
    patterns := []
    login_endpoint := "/login"
    method := "POST"
    content_type := "application/json" }

/-- The profile loop of `ConfigManager.get_system_config`: skip the id
`generic`; count the `url_contains` patterns whose lower-cased value occurs
in the lower-cased URL (no other pattern type is inspected); return the
first profile with a non-empty pattern list whose count reaches half.  The
Python guard `match_count >= len(patterns) / 2` divides exactly (float
division), i.e. `2 * match_count >= len(patterns)`. -/
def getSystemConfigLoop (url_lower : String) :
    List (String × SystemConfig) → Option SystemConfig
  | [] => none
  | (sys_id, sys_config) :: rest =>
      if sys_id == "generic" then getSystemConfigLoop url_lower rest
      else
        let match_count := sys_config.patterns.countP
          (fun p => p.ptype == "url_contains" && strContains url_lower (lowerStr p.value))
        if !sys_config.patterns.isEmpty && 2 * match_count ≥ sys_config.patterns.length
        then some sys_config
        else getSystemConfigLoop url_lower rest

/-- `ConfigManager.get_system_config(url)` over the ordered `systems` dict. -/
def ConfigManager.get_system_config (systems : List (String × SystemConfig))
    (url : String) : SystemConfig :=
  match getSystemConfigLoop (lowerStr url) systems with
  | some c => c
  | none => (systems.lookup "generic").getD defaultGenericConfig

/-- The nested loops of `SimpleConfigManager.get_system_config`: return the
first profile one of whose `url_contains` pattern values is a case-sensitive
substring of the URL (no lower-casing, no threshold, `generic` not skipped). -/
def simpleGetSystemConfigLoop (url : String) :
    List (String × SystemConfig) → Option SystemConfig
  | [] => none
  | (_, sys_config) :: rest =>
      if sys_config.patterns.any
          (fun p => p.ptype == "url_contains" && strContains url p.value)
      then some sys_config
      else simpleGetSystemConfigLoop url rest

/-- `SimpleConfigManager.get_system_config(url)`; the fallback
`systems.get('generic', systems.get('httpbin'))` can yield `None`, hence the
`Option` result. -/
def SimpleConfigManager.get_system_config (systems : List (String × SystemConfig))
    (url : String) : Option SystemConfig :=
  match simpleGetSystemConfigLoop url systems with
  | some c => some c
  | none =>
      match systems.lookup "generic" with
      | some c => some c
      | none => systems.lookup "httpbin"

/-! ### The resolver as the claim states it (for comparison) -/

/-- Everything after the first `://` of a URL, if present. -/
def afterSchemeSep : List Char → Option (List Char)
  | [] => none
  | ':' :: '/' :: '/' :: rest => some rest
  | _ :: rest => afterSchemeSep rest

/-- The path component of a URL (the part of `urlparse(url).path` relevant
here): everything from the first `/` after the scheme and authority, with
any query or fragment stripped. -/
def pathOf (url : String) : String :=
  let rest := (afterSchemeSep url.data).getD url.data
  let path := rest.dropWhile (fun c => c ≠ '/')
  String.mk (path.takeWhile (fun c => c ≠ '?' && c ≠ '#'))

/-- Pattern matching as the claim describes it: case-insensitive substring
test against the full URL, or against the URL's path component only for
`path_contains` patterns. -/
def patternMatchesClaim (url : String) (p : Pattern) : Bool :=
  if p.ptype == "url_contains" then strContains (lowerStr url) (lowerStr p.value)
  else if p.ptype == "path_contains" then
    strContains (lowerStr (pathOf url)) (lowerStr p.value)
  else false

/-- The resolver exactly as the claim states it: first non-generic profile in
registration order with at least one pattern and match count at least
`ceil(patternCount/2)`; `generic` otherwise. -/
def resolveClaim (systems : List (String × SystemConfig)) (url : String) :
    SystemConfig :=
  match systems.find? (fun sc =>
      sc.1 ≠ "generic" &&
      !sc.2.patterns.isEmpty &&
      sc.2.patterns.countP (patternMatchesClaim url) ≥ (sc.2.patterns.length + 1) / 2) with
  | some sc => sc.2
  | none => (systems.lookup "generic").getD defaultGenericConfig

/-- The resolver as amended: identical to `resolveClaim` except that only
`url_contains` patterns are ever counted — `path_contains` (or any other)
patterns never match. -/
def resolveAmended (systems : List (String × SystemConfig)) (url : String) :
    SystemConfig :=
  match systems.find? (fun sc =>
      sc.1 ≠ "generic" &&
      !sc.2.patterns.isEmpty &&
      sc.2.patterns.countP
        (fun p => p.ptype == "url_contains" && strContains (lowerStr url) (lowerStr p.value))
        ≥ (sc.2.patterns.length + 1) / 2) with
  | some sc => sc.2
  | none => (systems.lookup "generic").getD defaultGenericConfig

/-! ## `src/core/unified_verifier.py`: response evaluation -/

/-- Success-indicator predicate from the counting loop of
`UnifiedVerifier._check_response`. -/
def successMatches (status_code : Int) (content : String) : Indicator → Bool
  | .status_code v => status_code == v
  | .body_length_gt v => (content.length : Int) > v
  | .body_contains v => strContains content v
  | .body_not_contains v => !(strContains content v)
  | .other _ => false

/-- The failure-indicator scan of `UnifiedVerifier._check_response`.  The
parameter `jmsg` models the `json.loads` call: `jmsg content = some m` iff
`content` parses as a JSON object with a `Message` key whose value is `m`
(the `try/except` around the parse returns control to the fallback message
on any parse failure). -/
def checkFailureLoop (jmsg : String → Option String) (status_code : Int)
    (content : String) : List Indicator → Option (Bool × String)
  | [] => none
  | ind :: rest =>
      match ind with
      | .body_contains v =>
          if strContains content v then
            some (false,
              match jmsg content with
              | some m => m
              | none => "包含失败标识: " ++ v)
          else checkFailureLoop jmsg status_code content rest
      | .status_code v =>
          if status_code == v then some (false, "HTTP状态码: " ++ toString v)
          else checkFailureLoop jmsg status_code content rest
      | _ => checkFailureLoop jmsg status_code content rest

/-- `UnifiedVerifier._check_response(status_code, content, sys_config)`. -/
def check_response (jmsg : String → Option String) (status_code : Int)
    (content : String) (cfg : SystemConfig) : Bool × String :=
  match checkFailureLoop jmsg status_code content cfg.failure_indicators with
  | some r => r
  | none =>
      let success_count := cfg.success_indicators.countP (successMatches status_code content)
      if success_count ≥ max 1 (cfg.success_indicators.length / 2 + 1) then
        (true, "登录成功")
      else (false, "未知响应")

/-- Failure-indicator match as the claim describes the scan: a
`body_contains` indicator matches when its value occurs in the body, a
`status_code` indicator when the status equals its value; no other
indicator kind participates in the failure scan. -/
def failureMatch (status_code : Int) (content : String) : Indicator → Bool
  | .body_contains v => strContains content v
  | .status_code v => status_code == v
  | _ => false

/-- The message the claim attributes to a matched failure indicator: for
`body_contains`, the JSON `Message` field when the body parses as an object
containing one, else the echo of the indicator value. -/
def failureMessageSpec (jmsg : String → Option String) (content : String) :
    Indicator → String
  | .body_contains v => (jmsg content).getD ("包含失败标识: " ++ v)
  | .status_code v => "HTTP状态码: " ++ toString v
  | _ => ""

/-! ## Credential encoding (`UnifiedVerifier._encrypt_password`)

`password.encode()`, `hashlib.md5`, `base64.b64encode` are reproduced
concretely below (bytes are `Nat < 256`); `hashlib.sha1` / `hashlib.sha256`
are not re-implemented and enter as function parameters. -/

/-- UTF-8 encoding of one character (Python `str.encode()`). -/
def utf8Char (c : Char) : List Nat :=
  let n := c.toNat
  if n < 128 then [n]
  else if n < 2048 then [192 ||| (n >>> 6), 128 ||| (n &&& 63)]
  else if n < 65536 then
    [224 ||| (n >>> 12), 128 ||| ((n >>> 6) &&& 63), 128 ||| (n &&& 63)]
  else
    [240 ||| (n >>> 18), 128 ||| ((n >>> 12) &&& 63),
     128 ||| ((n >>> 6) &&& 63), 128 ||| (n &&& 63)]

/-- UTF-8 bytes of a string. -/
def strUtf8 (s : String) : List Nat :=
  s.data.foldr (fun c acc => utf8Char c ++ acc) []

/-- Left-rotation within 32 bits. -/
def rotl32 (x n : Nat) : Nat :=
  ((x <<< n) ||| (x >>> (32 - n))) % 4294967296

/-- The MD5 sine-derived constant table (RFC 1321). -/
def md5K : List Nat :=
  [0xd76aa478, 0xe8c7b756, 0x242070db, 0xc1bdceee,
   0xf57c0faf, 0x4787c62a, 0xa8304613, 0xfd469501,
   0x698098d8, 0x8b44f7af, 0xffff5bb1, 0x895cd7be,
   0x6b901122, 0xfd987193, 0xa679438e, 0x49b40821,
   0xf61e2562, 0xc040b340, 0x265e5a51, 0xe9b6c7aa,
   0xd62f105d, 0x02441453, 0xd8a1e681, 0xe7d3fbc8,
   0x21e1cde6, 0xc33707d6, 0xf4d50d87, 0x455a14ed,
   0xa9e3e905, 0xfcefa3f8, 0x676f02d9, 0x8d2a4c8a,
   0xfffa3942, 0x8771f681, 0x6d9d6122, 0xfde5380c,
   0xa4beea44, 0x4bdecfa9, 0xf6bb4b60, 0xbebfbc70,
   0x289b7ec6, 0xeaa127fa, 0xd4ef3085, 0x04881d05,
   0xd9d4d039, 0xe6db99e5, 0x1fa27cf8, 0xc4ac5665,
   0xf4292244, 0x432aff97, 0xab9423a7, 0xfc93a039,
   0x655b59c3, 0x8f0ccc92, 0xffeff47d, 0x85845dd1,
   0x6fa87e4f, 0xfe2ce6e0, 0xa3014314, 0x4e0811a1,
   0xf7537e82, 0xbd3af235, 0x2ad7d2bb, 0xeb86d391]

/-- The MD5 per-round shift amounts. -/
def md5S : List Nat :=
  [7, 12, 17, 22, 7, 12, 17, 22, 7, 12, 17, 22, 7, 12, 17, 22,
   5, 9, 14, 20, 5, 9, 14, 20, 5, 9, 14, 20, 5, 9, 14, 20,
   4, 11, 16, 23, 4, 11, 16, 23, 4, 11, 16, 23, 4, 11, 16, 23,
   6, 10, 15, 21, 6, 10, 15, 21, 6, 10, 15, 21, 6, 10, 15, 21]

/-- Round function and message index for MD5 round `i`. -/
def md5FG (i b c d : Nat) : Nat × Nat :=
  if i < 16 then ((b &&& c) ||| ((b ^^^ 4294967295) &&& d), i)
  else if i < 32 then ((d &&& b) ||| ((d ^^^ 4294967295) &&& c), (5 * i + 1) % 16)
  else if i < 48 then (b ^^^ c ^^^ d, (3 * i + 5) % 16)
  else (c ^^^ (b ||| (d ^^^ 4294967295)), (7 * i) % 16)

/-- One MD5 round applied to the running state. -/
def md5Round (M : List Nat) (st : Nat × Nat × Nat × Nat) (i : Nat) :
    Nat × Nat × Nat × Nat :=
  let (a, b, c, d) := st
  let (f, g) := md5FG i b c d
  let f := (f + a + md5K.getD i 0 + M.getD g 0) % 4294967296
  (d, (b + rotl32 f (md5S.getD i 0)) % 4294967296, b, c)

/-- Group a byte list into little-endian 32-bit words. -/
def leWords : List Nat → List Nat
  | b0 :: b1 :: b2 :: b3 :: rest =>
      (b0 + 256 * b1 + 65536 * b2 + 16777216 * b3) :: leWords rest
  | _ => []

/-- Split into 64-byte chunks (structural recursion on a fuel bound so the
kernel can evaluate it; `l.length` steps always suffice since each round
consumes at least one byte). -/
def chunks64Aux : Nat → List Nat → List (List Nat)
  | _, [] => []
  | 0, _ :: _ => []
  | fuel + 1, b :: rest => ((b :: rest).take 64) :: chunks64Aux fuel ((b :: rest).drop 64)

/-- Split into 64-byte chunks. -/
def chunks64 (l : List Nat) : List (List Nat) :=
  chunks64Aux l.length l

/-- `n` as `k` little-endian bytes. -/
def leBytes (k n : Nat) : List Nat :=
  match k with
  | 0 => []
  | k + 1 => n % 256 :: leBytes k (n / 256)

/-- MD5 message padding: `0x80`, zeros to 56 mod 64, then the bit length as
a 64-bit little-endian quantity. -/
def md5Pad (msg : List Nat) : List Nat :=
  let r := (msg.length + 1) % 64
  msg ++ [128] ++ List.replicate ((120 - r) % 64) 0 ++
    leBytes 8 ((8 * msg.length) % 18446744073709551616)

/-- Process one 64-byte chunk. -/
def md5Chunk (st : Nat × Nat × Nat × Nat) (chunk : List Nat) :
    Nat × Nat × Nat × Nat :=
  let M := leWords chunk
  let (a, b, c, d) := st
  let (a', b', c', d') := (List.range 64).foldl (md5Round M) (a, b, c, d)
  ((a + a') % 4294967296, (b + b') % 4294967296,
   (c + c') % 4294967296, (d + d') % 4294967296)

/-- MD5 digest (16 bytes) of a byte string. -/
def md5Bytes (msg : List Nat) : List Nat :=
  let (a, b, c, d) := (chunks64 (md5Pad msg)).foldl md5Chunk
    (0x67452301, 0xefcdab89, 0x98badcfe, 0x10325476)
  leBytes 4 a ++ leBytes 4 b ++ leBytes 4 c ++ leBytes 4 d

/-- Lower-case hexadecimal digit characters. -/
def hexChars : List Char := "0123456789abcdef".data

/-- Lower-case hex digest string of md5, i.e. `hashlib.md5(x).hexdigest()`. -/
def md5Hex (msg : List Nat) : String :=
  String.mk ((md5Bytes msg).foldr
    (fun b acc => hexChars.getD (b / 16) 'x' :: hexChars.getD (b % 16) 'x' :: acc) [])

/-- The base64 alphabet. -/
def b64Chars : List Char :=
  "ABCDEFGHIJKLMNOPQRSTUVWXYZabcdefghijklmnopqrstuvwxyz0123456789+/".data

/-- Standard base64 of a byte list (`base64.b64encode(x).decode()`). -/
def b64encode : List Nat → List Char
  | b0 :: b1 :: b2 :: rest =>
      b64Chars.getD (b0 / 4) '=' :: b64Chars.getD ((b0 % 4) * 16 + b1 / 16) '=' ::
      b64Chars.getD ((b1 % 16) * 4 + b2 / 64) '=' :: b64Chars.getD (b2 % 64) '=' ::
      b64encode rest
  | [b0, b1] =>
      [b64Chars.getD (b0 / 4) '=', b64Chars.getD ((b0 % 4) * 16 + b1 / 16) '=',
       b64Chars.getD ((b1 % 16) * 4) '=', '=']
  | [b0] =>
      [b64Chars.getD (b0 / 4) '=', b64Chars.getD ((b0 % 4) * 16) '=', '=', '=']
  | [] => []

/-- Base64 of a byte list as a string. -/
def b64encodeStr (bytes : List Nat) : String :=
  String.mk (b64encode bytes)

/-- `UnifiedVerifier._encrypt_password(password, method)`.  `sha1Hex` and
`sha256Hex` stand for `hashlib.sha1(x).hexdigest()` and
`hashlib.sha256(x).hexdigest()`, which are not re-implemented here.  The
Python guard `method == 'none' or method is None` is modelled by the string
comparison alone (`method` is a string in every caller). -/
def encrypt_password (sha1Hex sha256Hex : List Nat → String)
    (password method : String) : String :=
  if method == "none" then password
  else if method == "md5" then md5Hex (strUtf8 password)
  else if method == "md5_upper" then (md5Hex (strUtf8 password)).toUpper
  else if method == "sha1" then sha1Hex (strUtf8 password)
  else if method == "sha256" then sha256Hex (strUtf8 password)
  else if method == "base64" then b64encodeStr (strUtf8 password)
  else if method == "md5_base64" then b64encodeStr (strUtf8 (md5Hex (strUtf8 password)))
  else password

/-! ## Probe execution (`UnifiedVerifier.verify_batch_async` /
`verify_batch_sync`)

The network send is abstracted to a per-target outcome; concurrency is
cooperative and `asyncio.gather` returns results in task submission order,
so the batch is modelled as a list transformation over that order. -/

/-- What one probe's network interaction produced: an HTTP response, or one
of the three exception classes distinguished by the verifier. -/
inductive ProbeOutcome where
  | response (status_code : Int) (content : String) (final_url : String)
  | timeout (e : String)
  | connError (e : String)
  | exn (e : String)
deriving DecidableEq, Repr

/-- `UnifiedVerifier._verify_sync` after the request returned/raised: the
response branch delegates to `_check_response`, the `except` arms classify
the exception.  `elapsed` stands for the measured wall-clock time. -/
def verify_one (jmsg : String → Option String) (cfg : SystemConfig)
    (t : TargetInfo) (elapsed : Int) : ProbeOutcome → LoginResult
  | .response status_code content final_url =>
      let r := check_response jmsg status_code content cfg
      { status := if r.1 then .SUCCESS else .PASSWORD_ERROR
        success := r.1
        message := r.2
        response_time := elapsed
        url := t.url
        final_url := final_url
        page_changed := final_url != t.url
        details := some [("system_type", cfg.name),
                         ("status_code", toString status_code),
                         ("content_length", toString content.length)] }
  | .timeout _ =>
      { status := .TIMEOUT_ERROR, success := false, message := "请求超时"
        response_time := elapsed, url := t.url, final_url := t.url
        page_changed := false }
  | .connError e =>
      { status := .CONNECTION_ERROR, success := false
        message := "连接错误: " ++ e.take 50
        response_time := elapsed, url := t.url, final_url := t.url
        page_changed := false }
  | .exn e =>
      { status := .UNKNOWN_ERROR, success := false
        message := "未知错误: " ++ e.take 50
        response_time := elapsed, url := t.url, final_url := t.url
        page_changed := false }

/-- `verify_batch_sync`: a sequential loop appending exactly one result per
target (stats/callback/delay side effects do not alter the result list). -/
def verify_batch_sync (verifyOne : TargetInfo → LoginResult)
    (targets : List TargetInfo) : List LoginResult :=
  targets.map verifyOne

/-- The exception-conversion arm of the result loop of
`verify_batch_async`: a task that surfaced an exception object is replaced
by an `UNKNOWN_ERROR` result for its target. -/
def taskErrorResult (t : TargetInfo) (e : String) : LoginResult :=
  { status := .UNKNOWN_ERROR
    success := false
    message := "任务异常: " ++ e.take 50
    response_time := 0
    url := t.url
    final_url := t.url
    page_changed := false }

/-- One step of `verify_batch_async`'s result loop, pairing `results[i]`
with `targets[i]`. -/
def convertGatherResult (t : TargetInfo) : Except String LoginResult → LoginResult
  | .ok r => r
  | .error e => taskErrorResult t e

/-- `verify_batch_async(targets)`: tasks are created in target order,
`asyncio.gather(..., return_exceptions=True)` yields one entry per task in
that order (a result or the raised exception object), and the final loop
converts exception entries positionally. -/
def verify_batch_async (probe : TargetInfo → Except String LoginResult)
    (targets : List TargetInfo) : List LoginResult :=
  let results := targets.map probe
  List.zipWith convertGatherResult targets results

/-! ## `src/core/proxy_support.py` -/

/-- Dataclass `ProxyInfo` (the `proxy_type` enum is carried as its value
string). -/
structure ProxyInfo where
  host : String
  port : Nat
  username : Option String := none
  password : Option String := none
  proxy_type : String := "http"
deriving DecidableEq, Repr

/-- Dataclass `ProxyPool`.  The failure dict is modelled by its lookup
function `failures i = self.failures.get(i, 0)`. -/
structure ProxyPool where
  proxies : List ProxyInfo := []
  enabled : Bool := false
  max_failures : Nat := 3
  rotation_strategy : String := "round_robin"
  failures : Nat → Nat := fun _ => 0
  current_index : Nat := 0

/-- `ProxyPool.reset_failures`. -/
def ProxyPool.reset_failures (p : ProxyPool) : ProxyPool :=
  { p with failures := fun _ => 0 }

/-- Python `min(available, key=lambda x: failures.get(x[0], 0))`: the first
element attaining the minimum. -/
def minByFailures (f : Nat → Nat) (best : Nat × ProxyInfo) :
    List (Nat × ProxyInfo) → Nat × ProxyInfo
  | [] => best
  | x :: xs => if f x.1 < f best.1 then minByFailures f x xs else minByFailures f best xs

/-- Fallback element for list indexing that is provably in range. -/
def dummyIndexedProxy : Nat × ProxyInfo :=
  (0, { host := "", port := 0 })

/-- `ProxyPool.get_proxy()`.  `rnd` feeds `random.choice` (the chosen index
is `rnd % len(available)`); the updated pool state is returned alongside
the selected proxy. -/
def ProxyPool.get_proxy (p : ProxyPool) (rnd : Nat) :
    Option ProxyInfo × ProxyPool :=
  if !p.enabled || p.proxies.isEmpty then (none, p)
  else
    let available := p.proxies.enum.filter (fun ip => p.failures ip.1 < p.max_failures)
    let (available, p') :=
      if available.isEmpty then (p.reset_failures.proxies.enum, p.reset_failures)
      else (available, p)
    if available.isEmpty then (none, p')
    else if p'.rotation_strategy == "random" then
      (some (available.getD (rnd % available.length) dummyIndexedProxy).2, p')
    else if p'.rotation_strategy == "least_used" then
      (some (minByFailures p'.failures (available.headD dummyIndexedProxy)
        (available.drop 1)).2, p')
    else
      (some (available.getD (p'.current_index % available.length) dummyIndexedProxy).2,
       { p' with current_index := p'.current_index + 1 })

/-! ## Statement-side helpers and concrete instances used by the theorems -/

/-- The `failed` count as the claim describes it: results that are neither a
success nor counted as an error (status outside
`{CONNECTION_ERROR, TIMEOUT_ERROR, UNKNOWN_ERROR}`). -/
def claimFailedCount (rs : List LoginResult) : Nat :=
  rs.countP (fun r => !r.success &&
    !([LoginStatus.CONNECTION_ERROR, LoginStatus.TIMEOUT_ERROR,
       LoginStatus.UNKNOWN_ERROR].contains r.status))

/-- `SimpleConfigManager.get_system_config` restated: the first profile in
registration order one of whose `url_contains` pattern values occurs
case-sensitively in the URL; else `generic`, else `httpbin`. -/
def simpleResolveSpec (systems : List (String × SystemConfig)) (url : String) :
    Option SystemConfig :=
  match systems.find? (fun sc =>
      sc.2.patterns.any (fun p => p.ptype == "url_contains" && strContains url p.value)) with
  | some sc => some sc.2
  | none =>
      match systems.lookup "generic" with
      | some c => some c
      | none => systems.lookup "httpbin"

/-- The method names `_encrypt_password` recognizes. -/
def supportedMethods : List String :=
  ["none", "md5", "md5_upper", "sha1", "sha256", "base64", "md5_base64"]

/-- Shorthand for a target in concrete instances. -/
def tgt (u : String) (i : Nat) : TargetInfo :=
  { url := u, username := "u", password := "p", index := i }

/-- A session with one target, as created by `ProgressManager.create_session`. -/
def sessionC1 : ScanSession :=
  { session_id := "scan_1", created_at := "c", updated_at := "c"
    targets := [tgt "https://example1.com/login" 0] }

/-- A fresh three-target session. -/
def sessionThree : ScanSession :=
  { session_id := "scan_3", created_at := "c", updated_at := "c"
    targets := [tgt "a" 0, tgt "b" 1, tgt "c" 2] }

/-- A successful probe result. -/
def resultSuccess : LoginResult :=
  { status := .SUCCESS, success := true, message := "m1", response_time := 1
    url := "a", final_url := "a", page_changed := false }

/-- A failed (password error) probe result. -/
def resultFailure : LoginResult :=
  { status := .PASSWORD_ERROR, success := false, message := "m2", response_time := 1
    url := "a", final_url := "a", page_changed := false }

/-- A non-success result with a connection-error status. -/
def connErrorResult : LoginResult :=
  { status := .CONNECTION_ERROR, success := false, message := "e", response_time := 1
    url := "a", final_url := "a", page_changed := false }

/-- A session holding exactly one connection-error result. -/
def sessionC3 : ScanSession :=
  { session_id := "scan_c3", created_at := "c", updated_at := "c"
    targets := [tgt "a" 0], completed_indices := [0]
    results := [connErrorResult] }

/-- A profile detected only through a `path_contains` pattern. -/
def apiProfileC4 : SystemConfig :=
  { name := "api", patterns := [⟨"path_contains", "/api/login"⟩]
    login_endpoint := "/api/login" }

/-- A pattern-less generic profile. -/
def genericProfileC4 : SystemConfig :=
  { name := "generic", patterns := [], login_endpoint := "/login" }

/-- A registry with the `path_contains` profile first and `generic` last. -/
def systemsC4 : List (String × SystemConfig) :=
  [("api_sys", apiProfileC4), ("generic", genericProfileC4)]

/-- A URL whose path contains the profile's `path_contains` value. -/
def urlC4 : String := "http://example.com/api/login"

/-- A profile with an empty `success_indicators` list. -/
def cfgC10 : SystemConfig :=
  { name := "bare", patterns := [], login_endpoint := "/l"
    success_indicators := [], failure_indicators := [] }

/-- Two concrete targets for the batch witness. -/
def tgtA : TargetInfo := tgt "a" 0

/-- Second concrete target for the batch witness. -/
def tgtB : TargetInfo := tgt "b" 1

/-- A probe that succeeds on `tgtA` and raises on every other target. -/
def probeW : TargetInfo → Except String LoginResult :=
  fun t => if t.url == "a" then .ok resultSuccess else .error "boom"

/-- Two concrete proxies. -/
def proxyA : ProxyInfo := { host := "h1", port := 1 }

/-- Second concrete proxy. -/
def proxyB : ProxyInfo := { host := "h2", port := 2 }

/-- An enabled pool in which every proxy has reached `max_failures`. -/
def poolC8 : ProxyPool :=
  { proxies := [proxyA, proxyB], enabled := true, max_failures := 3
    rotation_strategy := "round_robin", failures := fun _ => 3, current_index := 0 }

/-- A default (disabled, empty) pool. -/
def poolDisabled : ProxyPool := {}

/-- A stand-in for an unimplemented hash primitive in witnesses. -/
def mockHash : List Nat → String := fun _ => ""

/-- The remaining-target list as the claim reads: walk the target list with
its running index and keep exactly the entries whose index is absent from
`completed`. -/
def remainingByIndex (completed : List Nat) : Nat → List TargetInfo → List TargetInfo
  | _, [] => []
  | i, t :: ts =>
      if completed.contains i then remainingByIndex completed (i + 1) ts
      else t :: remainingByIndex completed (i + 1) ts

/-! ## Theorems -/

/-- The three status-disjoint counts split the result list. -/
lemma countP_status_partition (l : List LoginResult) :
    l.countP (fun r => r.success)
      + l.countP (fun r => !r.success && !(r.status == LoginStatus.UNKNOWN_ERROR))
      + l.countP (fun r => !r.success && (r.status == LoginStatus.UNKNOWN_ERROR))
      = l.length := by
  induction l with
  | nil => rfl
  | cons r rs ih =>
      simp only [List.countP_cons, List.length_cons]
      cases hr : r.success <;>
        cases hs : r.status == LoginStatus.UNKNOWN_ERROR <;>
          simp [hr, hs] <;> omega

/-- Claim C1: saving a session and loading it back reproduces its targets,
completed indices and stats.  The code cannot do this: `ScanSession.to_dict`
calls the non-existent `TargetInfo.to_dict`, so `save_session` returns
`False` for any session with at least one target, and `ScanSession.from_dict`
passes the unknown keyword `source_file` to `TargetInfo`, so loading fails as
well; the round trip yields nothing. -/
theorem save_load_round_trip_fails :
    saveSession sessionC1 = false ∧
    saveLoadRoundTrip sessionC1 = none ∧
    sessionC1.targets ≠ [] := by
  decide

/-- Claim C2: a second `add_result` for the same index should replace the
recorded result.  In the code the replacement guard `hasattr(r, 'target')`
is always false, so the second result is appended: `completed_indices` stays
`[0]` (the idempotent half holds) but both results are recorded, and the
recomputed stats count both. -/
theorem add_result_duplicates_results :
    ((sessionThree.add_result 0 resultSuccess "t1").add_result 0 resultFailure "t2").completed_indices
      = [0] ∧
    ((sessionThree.add_result 0 resultSuccess "t1").add_result 0 resultFailure "t2").results
      = [resultSuccess, resultFailure] ∧
    ((sessionThree.add_result 0 resultSuccess "t1").add_result 0 resultFailure "t2").stats.lookup "success"
      = some 1 ∧
    ((sessionThree.add_result 0 resultSuccess "t1").add_result 0 resultFailure "t2").stats.lookup "failed"
      = some 1 := by
  decide

/-- Claim C3, counterexample: a non-success result with status
`CONNECTION_ERROR` is counted by the code in `failed` (which only excludes
`UNKNOWN_ERROR`) as well as in `errors`, whereas the claim puts it in
`errors` only — the claimed `failed` count at this input is `0`, the code
computes `1`. -/
theorem stats_failed_counts_connection_error :
    (ScanSession.update_stats sessionC3).stats.lookup "failed" = some 1 ∧
    (ScanSession.update_stats sessionC3).stats.lookup "errors" = some 1 ∧
    claimFailedCount sessionC3.results = 0 := by
  decide

/-- Claim C3 as amended: `success` counts successes and `errors` counts the
three error statuses as claimed, but `failed` counts every non-success
result whose status is not `UNKNOWN_ERROR` — non-success `CONNECTION_ERROR`
and `TIMEOUT_ERROR` results are counted in both `failed` and `errors`.
`success`, `failed` and the non-success `UNKNOWN_ERROR` results partition
the result list. -/
theorem update_stats_characterization (s : ScanSession) :
    (ScanSession.update_stats s).stats.lookup "success"
      = some (s.results.countP (fun r => r.success) : Int) ∧
    (ScanSession.update_stats s).stats.lookup "errors"
      = some (s.results.countP
          (fun r => [LoginStatus.CONNECTION_ERROR, LoginStatus.TIMEOUT_ERROR,
                     LoginStatus.UNKNOWN_ERROR].contains r.status) : Int) ∧
    (ScanSession.update_stats s).stats.lookup "failed"
      = some (s.results.countP
          (fun r => !r.success && !(r.status == LoginStatus.UNKNOWN_ERROR)) : Int) ∧
    s.results.countP (fun r => r.success)
      + s.results.countP (fun r => !r.success && !(r.status == LoginStatus.UNKNOWN_ERROR))
      + s.results.countP (fun r => !r.success && (r.status == LoginStatus.UNKNOWN_ERROR))
      = s.results.length := by
  refine ⟨rfl, rfl, rfl, countP_status_partition s.results⟩

/-- Claim C4, counterexample: a registry whose first profile carries a
single `path_contains` pattern whose value occurs in the URL path.  By the
claim's matching rule the profile is selected (1 of 1 patterns match); the
code inspects only `url_contains` patterns, counts zero matches and falls
back to `generic`. -/
theorem resolve_ignores_path_patterns :
    resolveClaim systemsC4 urlC4 = apiProfileC4 ∧
    ConfigManager.get_system_config systemsC4 urlC4 = genericProfileC4 ∧
    apiProfileC4 ≠ genericProfileC4 := by
  decide

/-- The profile loop of `ConfigManager.get_system_config` is a first-match
search under the amended predicate (non-generic, at least one pattern,
`url_contains` match count at least `ceil(patternCount/2)`). -/
lemma getSystemConfigLoop_eq_find (ul : String) :
    ∀ systems : List (String × SystemConfig),
      getSystemConfigLoop ul systems =
        (systems.find? (fun sc =>
          sc.1 ≠ "generic" &&
          !sc.2.patterns.isEmpty &&
          sc.2.patterns.countP
              (fun p => p.ptype == "url_contains" && strContains ul (lowerStr p.value))
            ≥ (sc.2.patterns.length + 1) / 2)).map (fun sc => sc.2)
  | [] => rfl
  | (sys_id, cfg) :: rest => by
      have ih := getSystemConfigLoop_eq_find ul rest
      by_cases hg : sys_id = "generic"
      · simp [getSystemConfigLoop, hg, List.find?_cons, ih]
      · by_cases hc : cfg.patterns.isEmpty
        · simp [getSystemConfigLoop, hg, hc, List.find?_cons, ih]
        · by_cases hthr : 2 * (cfg.patterns.countP
              (fun p => p.ptype == "url_contains" && strContains ul (lowerStr p.value)))
              ≥ cfg.patterns.length
          · have hthr' : cfg.patterns.countP
                (fun p => p.ptype == "url_contains" && strContains ul (lowerStr p.value))
                ≥ (cfg.patterns.length + 1) / 2 := by omega
            simp [getSystemConfigLoop, hg, hc, hthr, hthr', List.find?_cons, ih]
          · have hthr' : ¬ (cfg.patterns.countP
                (fun p => p.ptype == "url_contains" && strContains ul (lowerStr p.value))
                ≥ (cfg.patterns.length + 1) / 2) := by omega
            simp [getSystemConfigLoop, hg, hc, hthr, hthr', List.find?_cons, ih]

/-- The nested loops of `SimpleConfigManager.get_system_config` are a
first-match search for a single case-sensitive `url_contains` hit. -/
lemma simpleGetSystemConfigLoop_eq_find (url : String) :
    ∀ systems : List (String × SystemConfig),
      simpleGetSystemConfigLoop url systems =
        (systems.find? (fun sc =>
          sc.2.patterns.any (fun p => p.ptype == "url_contains" && strContains url p.value))).map
          (fun sc => sc.2)
  | [] => rfl
  | (sys_id, cfg) :: rest => by
      have ih := simpleGetSystemConfigLoop_eq_find url rest
      by_cases h : cfg.patterns.any (fun p => p.ptype == "url_contains" && strContains url p.value)
      · simp [simpleGetSystemConfigLoop, h, List.find?_cons, ih]
      · simp [simpleGetSystemConfigLoop, h, List.find?_cons, ih]

/-- Claim C4 as amended: `ConfigManager.get_system_config` selects the first
profile in registration order that is not `generic`, has at least one
pattern, and whose `url_contains` patterns (case-insensitively) match the
URL at least `ceil(patternCount/2)` times — `path_contains` patterns are
never counted — falling back to `generic`; it never fails.
`SimpleConfigManager.get_system_config` instead returns the first profile
with any single case-sensitive `url_contains` match (no threshold, no
lower-casing), falling back to `generic`, then `httpbin`. -/
theorem resolvers_characterized (systems : List (String × SystemConfig)) (url : String) :
    ConfigManager.get_system_config systems url = resolveAmended systems url ∧
    SimpleConfigManager.get_system_config systems url = simpleResolveSpec systems url := by
  constructor
  · unfold ConfigManager.get_system_config resolveAmended
    rw [getSystemConfigLoop_eq_find]
    cases List.find? (fun sc =>
        sc.1 ≠ "generic" &&
        !sc.2.patterns.isEmpty &&
        sc.2.patterns.countP
            (fun p => p.ptype == "url_contains" && strContains (lowerStr url) (lowerStr p.value))
          ≥ (sc.2.patterns.length + 1) / 2) systems <;> rfl
  · unfold SimpleConfigManager.get_system_config simpleResolveSpec
    rw [simpleGetSystemConfigLoop_eq_find]
    cases List.find? (fun sc =>
        sc.2.patterns.any (fun p => p.ptype == "url_contains" && strContains url p.value)) systems <;>
      rfl

/-- The failure-indicator scan is a first-match search: the first indicator
(in declaration order) that matches determines the returned failure pair. -/
lemma checkFailureLoop_eq_find (jmsg : String → Option String) (sc : Int) (content : String) :
    ∀ inds : List Indicator,
      checkFailureLoop jmsg sc content inds =
        (inds.find? (failureMatch sc content)).map
          (fun ind => (false, failureMessageSpec jmsg content ind))
  | [] => rfl
  | ind :: rest => by
      have ih := checkFailureLoop_eq_find jmsg sc content rest
      cases ind with
      | body_contains v =>
          by_cases h : strContains content v
          · simp [checkFailureLoop, failureMatch, h, List.find?_cons, failureMessageSpec]
            cases jmsg content <;> simp [Option.getD]
          · simp [checkFailureLoop, failureMatch, h, List.find?_cons, ih]
      | status_code v =>
          by_cases h : sc == v
          · simp [checkFailureLoop, failureMatch, h, List.find?_cons, failureMessageSpec]
          · simp [checkFailureLoop, failureMatch, h, List.find?_cons, ih]
      | body_not_contains v =>
          simp [checkFailureLoop, failureMatch, List.find?_cons, ih]
      | body_length_gt v =>
          simp [checkFailureLoop, failureMatch, List.find?_cons, ih]
      | other t =>
          simp [checkFailureLoop, failureMatch, List.find?_cons, ih]

/-- Claim C5: `_check_response` scans the failure indicators in declaration
order and on the first match returns `(false, message)` — preferring the
body's JSON `Message` field for a `body_contains` match — and otherwise
succeeds exactly when the matched success-indicator count is strictly more
than half the indicator list (`max(1, n // 2 + 1)` equals that threshold),
failing with the unknown-response message in every other case. -/
theorem check_response_evaluation (jmsg : String → Option String) (sc : Int)
    (content : String) (cfg : SystemConfig) :
    check_response jmsg sc content cfg =
      match cfg.failure_indicators.find? (failureMatch sc content) with
      | some ind => (false, failureMessageSpec jmsg content ind)
      | none =>
          if 2 * cfg.success_indicators.countP (successMatches sc content)
              > cfg.success_indicators.length
          then (true, "登录成功") else (false, "未知响应") := by
  unfold check_response
  rw [checkFailureLoop_eq_find]
  cases cfg.failure_indicators.find? (failureMatch sc content) with
  | some ind => rfl
  | none =>
      simp only [Option.map_none']
      have h : (cfg.success_indicators.countP (successMatches sc content)
            ≥ max 1 (cfg.success_indicators.length / 2 + 1))
          ↔ (2 * cfg.success_indicators.countP (successMatches sc content)
            > cfg.success_indicators.length) := by
        rw [ge_iff_le, Nat.max_le]
        omega
      by_cases hc : 2 * cfg.success_indicators.countP (successMatches sc content)
          > cfg.success_indicators.length
      · rw [if_pos (h.mpr hc), if_pos hc]
      · rw [if_neg (fun hx => hc (h.mp hx)), if_neg hc]

/-- Filtering the enumerated target list by absent indices is the indexed
walk `remainingByIndex`. -/
lemma enumFrom_filter_not_contains (comp : List Nat) :
    ∀ (l : List TargetInfo) (n : Nat),
      ((List.enumFrom n l).filter (fun it => !(comp.contains it.1))).map (fun it => it.2)
        = remainingByIndex comp n l
  | [], _ => rfl
  | t :: ts, n => by
      have ih := enumFrom_filter_not_contains comp ts (n + 1)
      by_cases h : n ∈ comp
      · simp only [List.enumFrom, List.filter_cons, remainingByIndex]
        simp [h]
        simpa using ih
      · simp only [List.enumFrom, List.filter_cons, remainingByIndex]
        simp [h]
        simpa using ih

/-- The remaining-target walk is a sublist of the target list (original
order preserved). -/
lemma remainingByIndex_sublist (comp : List Nat) :
    ∀ (l : List TargetInfo) (n : Nat), List.Sublist (remainingByIndex comp n l) l
  | [], _ => List.Sublist.refl []
  | t :: ts, n => by
      by_cases h : n ∈ comp
      · have hb : comp.contains n = true := by simpa using h
        simp only [remainingByIndex, hb, if_pos]
        exact (remainingByIndex_sublist comp ts (n + 1)).cons t
      · have hb : comp.contains n = false := by simpa using h
        simp only [remainingByIndex, hb, Bool.false_eq_true, if_false]
        exact (remainingByIndex_sublist comp ts (n + 1)).cons₂ t

/-- Claim C6: `get_remaining_targets` returns exactly the targets whose
index is absent from `completed_indices`, in original order (it equals the
indexed walk and is a sublist of the target list); in particular, after
`add_result` for indices 0 and 2 of a three-target session only the target
at index 1 remains. -/
theorem get_remaining_targets_spec (s : ScanSession) :
    s.get_remaining_targets = remainingByIndex s.completed_indices 0 s.targets ∧
    List.Sublist s.get_remaining_targets s.targets ∧
    ((sessionThree.add_result 0 resultSuccess "t1").add_result 2 resultFailure "t2").get_remaining_targets
      = [tgt "b" 1] := by
  have h : s.get_remaining_targets = remainingByIndex s.completed_indices 0 s.targets := by
    unfold ScanSession.get_remaining_targets
    rw [List.enum]
    exact enumFrom_filter_not_contains s.completed_indices s.targets 0
  refine ⟨h, ?_, by decide⟩
  rw [h]
  exact remainingByIndex_sublist s.completed_indices s.targets 0

/-- Claim C7: over any target list and any per-target outcome (including
raised exceptions), the async batch yields exactly one result per target in
submission order, with any per-target exception converted to an
`UNKNOWN_ERROR` result for that target; the sequential batch likewise maps
each target to exactly one result. -/
theorem verify_batch_total (probe : TargetInfo → Except String LoginResult)
    (targets : List TargetInfo) :
    (verify_batch_async probe targets).length = targets.length ∧
    (∀ i : Nat, (verify_batch_async probe targets)[i]?
        = (targets[i]?).map (fun t => convertGatherResult t (probe t))) ∧
    (∀ t e, probe t = .error e →
        (convertGatherResult t (probe t)).status = .UNKNOWN_ERROR ∧
        (convertGatherResult t (probe t)).success = false ∧
        (convertGatherResult t (probe t)).url = t.url) ∧
    (∀ (f : TargetInfo → LoginResult) (i : Nat),
        (verify_batch_sync f targets)[i]? = (targets[i]?).map f) := by
  have hasync : verify_batch_async probe targets
      = targets.map (fun t => convertGatherResult t (probe t)) := by
    unfold verify_batch_async
    rw [List.zipWith_map_right, List.zipWith_same]
  refine ⟨?_, ?_, ?_, ?_⟩
  · rw [hasync, List.length_map]
  · intro i
    rw [hasync, List.getElem?_map]
  · intro t e he
    rw [he]
    exact ⟨rfl, rfl, rfl⟩
  · intro f i
    unfold verify_batch_sync
    rw [List.getElem?_map]

/-- Witness for C7 at a concrete two-target batch whose second probe raises. -/
theorem verify_batch_total_witness :
    ((convertGatherResult tgtB (probeW tgtB)).status = .UNKNOWN_ERROR ∧
     (convertGatherResult tgtB (probeW tgtB)).success = false ∧
     (convertGatherResult tgtB (probeW tgtB)).url = tgtB.url) ∧
    (verify_batch_async probeW [tgtA, tgtB]).length = 2 :=
  ⟨(verify_batch_total probeW [tgtA, tgtB]).2.2.1 tgtB "boom" rfl,
   ((verify_batch_total probeW [tgtA, tgtB]).1).trans rfl⟩

/-- The re-implemented primitives agree with the RFC 1321 / RFC 4648 test
vectors, so the composition proved about `md5_base64` is about the real
`hashlib.md5` / `base64.b64encode` semantics. -/
lemma md5Hex_test_vector :
    md5Hex (strUtf8 "abc") = "900150983cd24fb0d6963f7d28e17f72" ∧
    md5Hex (strUtf8 "") = "d41d8cd98f00b204e9800998ecf8427e" ∧
    b64encodeStr (strUtf8 "abc") = "YWJj" := by
  refine ⟨rfl, rfl, rfl⟩

/-- Claim C9: `_encrypt_password` with method `md5_base64` is the base64 of
the UTF-8 bytes of the lower-case md5 hex digest string (not of the raw
digest bytes), and any unrecognized method name returns the secret
unchanged; the function is total. -/
theorem encrypt_password_spec (sha1Hex sha256Hex : List Nat → String) (secret : String) :
    encrypt_password sha1Hex sha256Hex secret "md5_base64"
      = b64encodeStr (strUtf8 (md5Hex (strUtf8 secret))) ∧
    ∀ m, m ∉ supportedMethods → encrypt_password sha1Hex sha256Hex secret m = secret := by
  refine ⟨rfl, ?_⟩
  intro m hm
  simp only [supportedMethods, List.mem_cons, List.not_mem_nil, or_false, not_or] at hm
  obtain ⟨h1, h2, h3, h4, h5, h6, h7⟩ := hm
  simp [encrypt_password, h1, h2, h3, h4, h5, h6, h7]

/-- Witness for C9 at a concrete secret and unknown method name. -/
theorem encrypt_password_spec_witness :
    encrypt_password mockHash mockHash "abc" "rot13" = "abc" :=
  (encrypt_password_spec mockHash mockHash "abc").2 "rot13" (by decide)

/-- Claim C10: a profile whose `success_indicators` list is empty can never
classify a response as a successful login — the threshold
`max(1, 0 // 2 + 1) = 1` exceeds the zero achievable matches, and the
failure scan only ever returns failure. -/
theorem empty_success_indicators_never_succeed (jmsg : String → Option String)
    (sc : Int) (content : String) (cfg : SystemConfig)
    (h : cfg.success_indicators = []) :
    (check_response jmsg sc content cfg).1 = false := by
  unfold check_response
  rw [checkFailureLoop_eq_find]
  cases cfg.failure_indicators.find? (failureMatch sc content) with
  | some ind => rfl
  | none => simp [h]

/-- Witness for C10 at a concrete indicator-free profile. -/
theorem empty_success_indicators_never_succeed_witness :
    (check_response (fun _ => none) 200 "any body" cfgC10).1 = false :=
  empty_success_indicators_never_succeed (fun _ => none) 200 "any body" cfgC10 rfl

/-- Python's `min` with a key returns the first element attaining the
minimum; the fold that models it stays within the candidate list. -/
lemma minByFailures_mem (f : Nat → Nat) :
    ∀ (xs : List (Nat × ProxyInfo)) (b : Nat × ProxyInfo),
      minByFailures f b xs ∈ b :: xs
  | [], b => List.mem_singleton.mpr rfl
  | x :: xs, b => by
      by_cases h : f x.1 < f b.1
      · simp only [minByFailures, h, if_pos]
        have := minByFailures_mem f xs x
        simp only [List.mem_cons] at this ⊢
        tauto
      · simp only [minByFailures, h, if_neg, not_false_iff]
        have := minByFailures_mem f xs b
        simp only [List.mem_cons] at this ⊢
        tauto

/-- On an enabled, non-empty pool whose proxies have all reached
`max_failures`, `get_proxy` resets every failure counter and still returns
a proxy from the full list, under every rotation strategy. -/
lemma get_proxy_all_failed (p : ProxyPool) (rnd : Nat)
    (he : p.enabled = true) (hne : p.proxies ≠ [])
    (hf : ∀ i, i < p.proxies.length → p.max_failures ≤ p.failures i) :
    (∃ pr, (p.get_proxy rnd).1 = some pr ∧ pr ∈ p.proxies) ∧
    ∀ j, (p.get_proxy rnd).2.failures j = 0 := by
  have hcond : (!p.enabled || p.proxies.isEmpty) = false := by
    simp [he, hne]
  have hfilter : p.proxies.enum.filter (fun ip => p.failures ip.1 < p.max_failures) = [] := by
    rw [List.filter_eq_nil_iff]
    intro ip hip
    have hsome := List.mem_enum_iff_getElem?.mp hip
    have hlt : ip.1 < p.proxies.length := by
      rcases List.getElem?_eq_some.mp hsome with ⟨h, _⟩
      exact h
    simpa using Nat.not_lt.mpr (hf ip.1 hlt)
  have hienum : (p.proxies.enum).isEmpty = false := by
    rcases List.exists_cons_of_ne_nil hne with ⟨a, as, hcons⟩
    simp [hcons, List.enumFrom]
  simp only [ProxyPool.get_proxy, hcond, Bool.false_eq_true, if_false, hfilter,
    List.isEmpty_nil, if_true, ProxyPool.reset_failures, hienum]
  have hlen0 : 0 < p.proxies.enum.length := by
    rw [List.enum_length]
    exact List.length_pos.mpr hne
  have hsnd : ∀ x ∈ p.proxies.enum, x.2 ∈ p.proxies := fun x hx =>
    List.getElem?_mem (List.mem_enum_iff_getElem?.mp hx)
  have hgetD : ∀ k, k < p.proxies.enum.length →
      (p.proxies.enum.getD k dummyIndexedProxy).2 ∈ p.proxies := by
    intro k hk
    rw [List.getD_eq_getElem _ _ hk]
    exact hsnd _ (List.getElem_mem hk)
  constructor
  · split
    · exact ⟨_, rfl, hgetD _ (Nat.mod_lt _ hlen0)⟩
    · split
      · rcases List.exists_cons_of_ne_nil (List.ne_nil_of_length_pos hlen0) with ⟨a, as, hcons⟩
        refine ⟨_, rfl, hsnd _ ?_⟩
        rw [hcons]
        simpa using minByFailures_mem (fun _ => 0) as a
      · exact ⟨_, rfl, hgetD _ (Nat.mod_lt _ hlen0)⟩
  · intro j
    split
    · rfl
    · split <;> rfl

/-- Claim C8: `get_proxy` returns nothing when the pool is disabled or
empty; and when every proxy's failure count has reached `max_failures`, it
resets all counters to zero and still returns some proxy from the full
list. -/
theorem get_proxy_spec (p : ProxyPool) (rnd : Nat) :
    ((p.enabled = false ∨ p.proxies = []) → (p.get_proxy rnd).1 = none) ∧
    (p.enabled = true → p.proxies ≠ [] →
      (∀ i, i < p.proxies.length → p.max_failures ≤ p.failures i) →
      (∃ pr, (p.get_proxy rnd).1 = some pr ∧ pr ∈ p.proxies) ∧
      ∀ j, (p.get_proxy rnd).2.failures j = 0) := by
  constructor
  · intro hp
    have hcond : (!p.enabled || p.proxies.isEmpty) = true := by
      rcases hp with h | h <;> simp [h]
    simp [ProxyPool.get_proxy, hcond]
  · intro he hne hf
    exact get_proxy_all_failed p rnd he hne hf

/-- Witness for C8: a disabled pool yields nothing; a two-proxy pool with
both counters at `max_failures` yields a proxy and zeroed counters. -/
theorem get_proxy_spec_witness :
    (poolDisabled.get_proxy 0).1 = none ∧
    ((∃ pr, (poolC8.get_proxy 0).1 = some pr ∧ pr ∈ poolC8.proxies) ∧
      ∀ j, (poolC8.get_proxy 0).2.failures j = 0) :=
  ⟨(get_proxy_spec poolDisabled 0).1 (Or.inl rfl),
   (get_proxy_spec poolC8 0).2 rfl (by decide) (fun _ _ => Nat.le.refl)⟩

end Weakpass
